import Mathlib

/-!
Verification of the goal-tracking velocity controller in
`pixi-build-ros/tests/integration/data/ros-workspace/src/navigator_implicit/src/navigator.cpp`.

The controller's `double` arithmetic is embedded as exact real arithmetic
(`ℝ`), with `std::sqrt`, `std::atan2`, `M_PI` and `std::clamp` mapped to
`Real.sqrt`, an explicit `atan2` built from `Real.arctan`, `Real.pi` and an
explicit `clamp`.  The node's mutable member fields are gathered in a
`NavState` structure; `control_loop` is the timer callback, returning the
published `Twist` together with the updated member state.
-/

namespace Navigator

open Real

/-- The C `std::atan2(y, x)` for finite inputs (the signed-zero
distinctions of IEEE 754 collapse in the real-number model). -/
noncomputable def atan2 (y x : ℝ) : ℝ :=
  if 0 < x then Real.arctan (y / x)
  else if x < 0 then
    (if 0 ≤ y then Real.arctan (y / x) + Real.pi
     else Real.arctan (y / x) - Real.pi)
  else
    (if 0 < y then Real.pi / 2
     else if y < 0 then -(Real.pi / 2)
     else 0)

/-- The first normalization loop of `control_loop`:
`while (angle_error > M_PI) angle_error -= 2 * M_PI;`. -/
noncomputable def normSub (a : ℝ) : ℝ :=
  if h : Real.pi < a then normSub (a - 2 * Real.pi) else a
termination_by (⌈(a - Real.pi) / (2 * Real.pi)⌉).toNat
decreasing_by
  have hpi : (0:ℝ) < Real.pi := Real.pi_pos
  have h2 : (0:ℝ) < 2 * Real.pi := by linarith
  have harg : (a - 2 * Real.pi - Real.pi) / (2 * Real.pi)
      = (a - Real.pi) / (2 * Real.pi) - 1 := by
    field_simp
    ring
  have hceil : ⌈(a - 2 * Real.pi - Real.pi) / (2 * Real.pi)⌉
      = ⌈(a - Real.pi) / (2 * Real.pi)⌉ - 1 := by
    rw [harg, Int.ceil_sub_one]
  have hpos : 0 < ⌈(a - Real.pi) / (2 * Real.pi)⌉ := by
    rw [Int.ceil_pos]
    exact div_pos (by linarith) h2
  simp only [hceil]
  omega

/-- The second normalization loop of `control_loop`:
`while (angle_error < -M_PI) angle_error += 2 * M_PI;`. -/
noncomputable def normAdd (a : ℝ) : ℝ :=
  if h : a < -Real.pi then normAdd (a + 2 * Real.pi) else a
termination_by (⌈(-Real.pi - a) / (2 * Real.pi)⌉).toNat
decreasing_by
  have hpi : (0:ℝ) < Real.pi := Real.pi_pos
  have h2 : (0:ℝ) < 2 * Real.pi := by linarith
  have harg : (-Real.pi - (a + 2 * Real.pi)) / (2 * Real.pi)
      = (-Real.pi - a) / (2 * Real.pi) - 1 := by
    field_simp
    ring
  have hceil : ⌈(-Real.pi - (a + 2 * Real.pi)) / (2 * Real.pi)⌉
      = ⌈(-Real.pi - a) / (2 * Real.pi)⌉ - 1 := by
    rw [harg, Int.ceil_sub_one]
  have hpos : 0 < ⌈(-Real.pi - a) / (2 * Real.pi)⌉ := by
    rw [Int.ceil_pos]
    exact div_pos (by linarith) h2
  simp only [hceil]
  omega

/-- Both normalization loops of `control_loop`, run in source order. -/
noncomputable def normalizeAngle (a : ℝ) : ℝ := normAdd (normSub a)

/-- The C++ `std::clamp(v, lo, hi)`. -/
noncomputable def clamp (v lo hi : ℝ) : ℝ :=
  if v < lo then lo else if hi < v then hi else v

/-- The mutable member fields of the `TurtleNavigator` node, in declaration
order. -/
structure NavState where
  x_goal : ℝ
  y_goal : ℝ
  x_current : ℝ
  y_current : ℝ
  theta_current : ℝ
  kp : ℝ
  ki : ℝ
  kd : ℝ
  prev_error : ℝ
  integral : ℝ

/-- The published `geometry_msgs::msg::Twist`, reduced to the two fields the
node writes (`linear.x`, `angular.z`). -/
structure Twist where
  linear : ℝ
  angular : ℝ

/-- The `TurtleNavigator` constructor's member initializer list.  The pose
fields `x_current_`, `y_current_`, `theta_current_` do NOT appear in the
initializer list, so they are default-initialized (indeterminate for
`double`); the indeterminate values are taken as parameters. -/
def initialNav (x0 y0 th0 : ℝ) : NavState :=
  { x_goal := 4.0, y_goal := 5.0
    x_current := x0, y_current := y0, theta_current := th0
    kp := 1.0, ki := 0.0, kd := 0.05
    prev_error := 0.0, integral := 0.0 }

/-- Handler `goal_callback`: stores the received goal coordinates. -/
def goal_callback (s : NavState) (gx gy : ℝ) : NavState :=
  { s with x_goal := gx, y_goal := gy }

/-- Handler `pose_callback`: stores the received pose. -/
def pose_callback (s : NavState) (px py pth : ℝ) : NavState :=
  { s with x_current := px, y_current := py, theta_current := pth }

/-- Local constant `max_linear_speed = 2.0` of `control_loop`. -/
def max_linear_speed : ℝ := 2.0

/-- Local constant `max_angular_speed = 2.0` of `control_loop`. -/
def max_angular_speed : ℝ := 2.0

/-- Local `error_x = x_goal_ - x_current_`. -/
def error_x (s : NavState) : ℝ := s.x_goal - s.x_current

/-- Local `error_y = y_goal_ - y_current_`. -/
def error_y (s : NavState) : ℝ := s.y_goal - s.y_current

/-- Local `distance_error = std::sqrt(error_x * error_x + error_y * error_y)`. -/
noncomputable def distance_error (s : NavState) : ℝ :=
  Real.sqrt (error_x s * error_x s + error_y s * error_y s)

/-- Local `angle_to_goal = std::atan2(error_y, error_x)`. -/
noncomputable def angle_to_goal (s : NavState) : ℝ :=
  atan2 (error_y s) (error_x s)

/-- Local `angle_error = angle_to_goal - theta_current_`, after the two
normalization loops. -/
noncomputable def angle_error (s : NavState) : ℝ :=
  normalizeAngle (angle_to_goal s - s.theta_current)

/-- Local `control_signal = kp_ * distance_error + ki_ * integral_ +
kd_ * (distance_error - prev_error_)`, read with the pre-update values of
`integral_` and `prev_error_`. -/
noncomputable def control_signal (s : NavState) : ℝ :=
  s.kp * distance_error s + s.ki * s.integral
    + s.kd * (distance_error s - s.prev_error)

/-- The timer callback `control_loop`: computes the errors, the normalized
angle error and the PID signal, updates `integral_` and `prev_error_`,
clamps both channels, and publishes `{linear.x, angular.z}`.  The returned
pair is (published message, node state after the call). -/
noncomputable def control_loop (s : NavState) : Twist × NavState :=
  ( { linear := clamp (control_signal s) (-max_linear_speed) max_linear_speed
      angular := clamp (4.0 * angle_error s) (-max_angular_speed) max_angular_speed },
    { s with integral := s.integral + distance_error s
             prev_error := distance_error s } )

/-- Runs `n` consecutive timer firings of `control_loop`. -/
noncomputable def iterateControl : ℕ → NavState → NavState
  | 0, s => s
  | n + 1, s => iterateControl n (control_loop s).2

/-- The angular channel of `control_loop` evaluated at zero position error:
a function of the pose heading alone. -/
noncomputable def headingOnlyAngular (th : ℝ) : ℝ :=
  clamp (4.0 * normalizeAngle (atan2 0 0 - th)) (-max_angular_speed) max_angular_speed

/-- Big-step relation of the source loop
`while (angle_error > M_PI) angle_error -= 2 * M_PI;`:
`SubLoopSteps a b` holds when the loop started at `a` terminates with `b`. -/
inductive SubLoopSteps : ℝ → ℝ → Prop
  | done (a : ℝ) (h : ¬ Real.pi < a) : SubLoopSteps a a
  | step (a b : ℝ) (h : Real.pi < a) (hs : SubLoopSteps (a - 2 * Real.pi) b) :
      SubLoopSteps a b

/-- Big-step relation of the source loop
`while (angle_error < -M_PI) angle_error += 2 * M_PI;`. -/
inductive AddLoopSteps : ℝ → ℝ → Prop
  | done (a : ℝ) (h : ¬ a < -Real.pi) : AddLoopSteps a a
  | step (a b : ℝ) (h : a < -Real.pi) (hs : AddLoopSteps (a + 2 * Real.pi) b) :
      AddLoopSteps a b

theorem normSub_le (a : ℝ) : normSub a ≤ Real.pi := by
  induction a using normSub.induct with
  | case1 a h ih => rw [normSub, dif_pos h]; exact ih
  | case2 a h => rw [normSub, dif_neg h]; exact le_of_not_lt h

theorem normSub_eq_of_le (a : ℝ) (h : a ≤ Real.pi) : normSub a = a := by
  rw [normSub, dif_neg (not_lt.mpr h)]

theorem normAdd_eq_of_ge (a : ℝ) (h : -Real.pi ≤ a) : normAdd a = a := by
  rw [normAdd, dif_neg (not_lt.mpr h)]

theorem normAdd_ge (a : ℝ) : -Real.pi ≤ normAdd a := by
  induction a using normAdd.induct with
  | case1 a h ih => rw [normAdd, dif_pos h]; exact ih
  | case2 a h => rw [normAdd, dif_neg h]; exact le_of_not_lt h

theorem normAdd_le (a : ℝ) : a ≤ Real.pi → normAdd a ≤ Real.pi := by
  induction a using normAdd.induct with
  | case1 a h ih =>
    intro _
    rw [normAdd, dif_pos h]
    exact ih (by linarith [Real.pi_pos])
  | case2 a h =>
    intro ha
    rw [normAdd, dif_neg h]
    exact ha

theorem normalizeAngle_le (a : ℝ) : normalizeAngle a ≤ Real.pi :=
  normAdd_le _ (normSub_le a)

theorem normalizeAngle_ge (a : ℝ) : -Real.pi ≤ normalizeAngle a :=
  normAdd_ge _

theorem normalizeAngle_eq_of_mem (a : ℝ) (h1 : -Real.pi ≤ a) (h2 : a ≤ Real.pi) :
    normalizeAngle a = a := by
  rw [normalizeAngle, normSub_eq_of_le a h2, normAdd_eq_of_ge a h1]

theorem normalizeAngle_five_pi : normalizeAngle (5 * Real.pi) = Real.pi := by
  have hpi := Real.pi_pos
  have h1 : normSub (5 * Real.pi) = Real.pi := by
    rw [normSub, dif_pos (by linarith)]
    rw [show 5 * Real.pi - 2 * Real.pi = 3 * Real.pi by ring]
    rw [normSub, dif_pos (by linarith)]
    rw [show 3 * Real.pi - 2 * Real.pi = Real.pi by ring]
    exact normSub_eq_of_le _ le_rfl
  rw [normalizeAngle, h1, normAdd_eq_of_ge _ (by linarith)]

theorem normalizeAngle_neg_three_pi : normalizeAngle (-(3 * Real.pi)) = -Real.pi := by
  have hpi := Real.pi_pos
  have h1 : normSub (-(3 * Real.pi)) = -(3 * Real.pi) :=
    normSub_eq_of_le _ (by linarith)
  rw [normalizeAngle, h1]
  rw [normAdd, dif_pos (by linarith)]
  rw [show -(3 * Real.pi) + 2 * Real.pi = -Real.pi by ring]
  exact normAdd_eq_of_ge _ le_rfl

theorem clamp_of_lt_lo (v lo hi : ℝ) (h1 : v < lo) : clamp v lo hi = lo := by
  rw [clamp, if_pos h1]

theorem clamp_of_hi_lt (v lo hi : ℝ) (h1 : hi < v) (h2 : lo ≤ hi) :
    clamp v lo hi = hi := by
  rw [clamp, if_neg (by push_neg; linarith), if_pos h1]

theorem clamp_of_mem (v lo hi : ℝ) (h1 : lo ≤ v) (h2 : v ≤ hi) :
    clamp v lo hi = v := by
  rw [clamp, if_neg (not_lt.mpr h1), if_neg (not_lt.mpr h2)]

theorem clamp_mem_Icc (v lo hi : ℝ) (h : lo ≤ hi) :
    lo ≤ clamp v lo hi ∧ clamp v lo hi ≤ hi := by
  rw [clamp]
  split_ifs with h1 h2
  · exact ⟨le_rfl, h⟩
  · exact ⟨h, le_rfl⟩
  · exact ⟨le_of_not_lt h1, le_of_not_lt h2⟩

theorem clamp_sign (v m : ℝ) (hm : 0 < m) (h : m < |v|) :
    clamp v (-m) m = m * Real.sign v := by
  rcases lt_abs.mp h with h1 | h1
  · rw [clamp_of_hi_lt v (-m) m h1 (by linarith),
      Real.sign_of_pos (by linarith), mul_one]
  · rw [clamp_of_lt_lo v (-m) m (by linarith),
      Real.sign_of_neg (by linarith)]
    ring

theorem distance_error_tick0 :
    distance_error ⟨4, 5, 0, 0, 0, 1, 0, 0.05, 0, 0⟩ = Real.sqrt 41 := by
  simp only [distance_error, error_x, error_y]
  norm_num

theorem sqrt_41_gt_six : (6 : ℝ) < Real.sqrt 41 := by
  nlinarith [Real.sq_sqrt (show (0:ℝ) ≤ 41 by norm_num), Real.sqrt_nonneg 41]

theorem control_signal_tick0_gt :
    max_linear_speed < control_signal ⟨4, 5, 0, 0, 0, 1, 0, 0.05, 0, 0⟩ := by
  have h6 := sqrt_41_gt_six
  simp only [control_signal, distance_error_tick0, max_linear_speed]
  norm_num
  nlinarith

theorem angle_error_tick0 :
    angle_error ⟨4, 5, 0, 0, 0, 1, 0, 0.05, 0, 0⟩ = Real.arctan (5 / 4) := by
  have hpi := Real.pi_pos
  have hlt : Real.arctan (5 / 4) < Real.pi / 2 := Real.arctan_lt_pi_div_two _
  have hgt : -(Real.pi / 2) < Real.arctan (5 / 4) := Real.neg_pi_div_two_lt_arctan _
  have h1 : angle_to_goal ⟨4, 5, 0, 0, 0, 1, 0, 0.05, 0, 0⟩ = Real.arctan (5 / 4) := by
    simp only [angle_to_goal, error_x, error_y, atan2]
    norm_num
  simp only [angle_error, h1]
  rw [show Real.arctan (5 / 4) - NavState.theta_current ⟨4, 5, 0, 0, 0, 1, 0, 0.05, 0, 0⟩
      = Real.arctan (5 / 4) by norm_num]
  exact normalizeAngle_eq_of_mem _ (by linarith) (by linarith)

theorem angular_raw_tick0_gt :
    max_angular_speed < 4.0 * angle_error ⟨4, 5, 0, 0, 0, 1, 0, 0.05, 0, 0⟩ := by
  have h1 : Real.arctan 1 < Real.arctan (5 / 4) :=
    Real.arctan_strictMono (by norm_num)
  rw [Real.arctan_one] at h1
  have h3 := Real.pi_gt_three
  rw [angle_error_tick0, max_angular_speed]
  norm_num
  nlinarith

theorem iterateControl_frame (n : ℕ) (s : NavState) :
    (iterateControl n s).x_goal = s.x_goal
      ∧ (iterateControl n s).y_goal = s.y_goal
      ∧ (iterateControl n s).x_current = s.x_current
      ∧ (iterateControl n s).y_current = s.y_current
      ∧ (iterateControl n s).theta_current = s.theta_current := by
  induction n generalizing s with
  | zero => exact ⟨rfl, rfl, rfl, rfl, rfl⟩
  | succ n ih => exact ih (control_loop s).2

theorem distance_error_step (s : NavState) :
    distance_error (control_loop s).2 = distance_error s := rfl

theorem iterateControl_integral (n : ℕ) (s : NavState) :
    (iterateControl n s).integral = s.integral + n * distance_error s := by
  induction n generalizing s with
  | zero => simp [iterateControl]
  | succ n ih =>
    have h : iterateControl (n + 1) s = iterateControl n (control_loop s).2 := rfl
    rw [h, ih, distance_error_step]
    show s.integral + distance_error s + n * distance_error s
      = s.integral + (n + 1 : ℕ) * distance_error s
    push_cast
    ring

theorem normSub_steps (a : ℝ) : SubLoopSteps a (normSub a) := by
  induction a using normSub.induct with
  | case1 a h ih =>
    rw [normSub, dif_pos h]
    exact SubLoopSteps.step a _ h ih
  | case2 a h =>
    rw [normSub, dif_neg h]
    exact SubLoopSteps.done a h

theorem normAdd_steps (a : ℝ) : AddLoopSteps a (normAdd a) := by
  induction a using normAdd.induct with
  | case1 a h ih =>
    rw [normAdd, dif_pos h]
    exact AddLoopSteps.step a _ h ih
  | case2 a h =>
    rw [normAdd, dif_neg h]
    exact AddLoopSteps.done a h

/-- C1: (corrected) the two normalization loops always leave the heading
error in the closed interval `[-π, π]`; `5π` normalizes to `π`, and `-3π`
normalizes to `-π` (the second loop stops as soon as the value is no longer
strictly below `-π`). -/
theorem C1_normalization_range (a : ℝ) :
    (-Real.pi ≤ normalizeAngle a ∧ normalizeAngle a ≤ Real.pi)
      ∧ normalizeAngle (5 * Real.pi) = Real.pi
      ∧ normalizeAngle (-(3 * Real.pi)) = -Real.pi :=
  ⟨⟨normalizeAngle_ge a, normalizeAngle_le a⟩,
   normalizeAngle_five_pi, normalizeAngle_neg_three_pi⟩

/-- C1 counterexample: the input `-3π` normalizes to `-π`, not `π`, and the
result lies outside the claimed half-open interval `(-π, π]`. -/
theorem C1_counterexample :
    normalizeAngle (-(3 * Real.pi)) = -Real.pi
      ∧ normalizeAngle (-(3 * Real.pi)) ≠ Real.pi
      ∧ ¬ (-Real.pi < normalizeAngle (-(3 * Real.pi))) := by
  have h := normalizeAngle_neg_three_pi
  refine ⟨h, ?_, ?_⟩
  · rw [h]
    intro hc
    nlinarith [Real.pi_pos]
  · rw [h]
    exact lt_irrefl _

/-- C2: with the constructor gains, goal `(4, 5)`, pose `(0, 0, 0)` and zero
controller state, the first `control_loop` invocation publishes
`{linear: 2, angular: 2}` (both raw signals exceed the `2.0` limits). -/
theorem C2_first_tick :
    (control_loop ⟨4, 5, 0, 0, 0, 1, 0, 0.05, 0, 0⟩).1 = ⟨2, 2⟩ := by
  have hsplit : (control_loop ⟨4, 5, 0, 0, 0, 1, 0, 0.05, 0, 0⟩).1
      = ⟨clamp (control_signal ⟨4, 5, 0, 0, 0, 1, 0, 0.05, 0, 0⟩)
            (-max_linear_speed) max_linear_speed,
         clamp (4.0 * angle_error ⟨4, 5, 0, 0, 0, 1, 0, 0.05, 0, 0⟩)
            (-max_angular_speed) max_angular_speed⟩ := rfl
  have hl : clamp (control_signal ⟨4, 5, 0, 0, 0, 1, 0, 0.05, 0, 0⟩)
      (-max_linear_speed) max_linear_speed = 2 := by
    rw [clamp_of_hi_lt _ _ _ control_signal_tick0_gt
      (by norm_num [max_linear_speed])]
    norm_num [max_linear_speed]
  have ha : clamp (4.0 * angle_error ⟨4, 5, 0, 0, 0, 1, 0, 0.05, 0, 0⟩)
      (-max_angular_speed) max_angular_speed = 2 := by
    rw [clamp_of_hi_lt _ _ _ angular_raw_tick0_gt
      (by norm_num [max_angular_speed])]
    norm_num [max_angular_speed]
  rw [hsplit, hl, ha]

/-- C3: the control signal is `kp * distance_error + ki * integral_error +
kd * (distance_error - previous_distance_error)` with the pre-update state
values; afterwards `integral_error` is incremented by `distance_error` and
`previous_distance_error` is set to `distance_error`, unconditionally. -/
theorem C3_pid_signal_and_state (s : NavState) :
    (control_loop s).1.linear
        = clamp (s.kp * distance_error s + s.ki * s.integral
            + s.kd * (distance_error s - s.prev_error))
            (-max_linear_speed) max_linear_speed
      ∧ (control_loop s).2.integral = s.integral + distance_error s
      ∧ (control_loop s).2.prev_error = distance_error s :=
  ⟨rfl, rfl, rfl⟩

/-- C4: both published components are clamped to the `±max` ranges, and a raw
signal whose magnitude exceeds the limit is published as the limit with the
raw signal's sign. -/
theorem C4_clamp_correct (s : NavState) :
    ((-max_linear_speed ≤ (control_loop s).1.linear
        ∧ (control_loop s).1.linear ≤ max_linear_speed)
      ∧ (-max_angular_speed ≤ (control_loop s).1.angular
        ∧ (control_loop s).1.angular ≤ max_angular_speed))
    ∧ (max_linear_speed < |control_signal s| →
        (control_loop s).1.linear
          = max_linear_speed * Real.sign (control_signal s))
    ∧ (max_angular_speed < |4.0 * angle_error s| →
        (control_loop s).1.angular
          = max_angular_speed * Real.sign (4.0 * angle_error s)) := by
  have hm : (0:ℝ) < max_linear_speed := by norm_num [max_linear_speed]
  have ham : (0:ℝ) < max_angular_speed := by norm_num [max_angular_speed]
  refine ⟨⟨?_, ?_⟩, ?_, ?_⟩
  · exact clamp_mem_Icc _ _ _ (by linarith)
  · exact clamp_mem_Icc _ _ _ (by linarith)
  · intro h
    exact clamp_sign _ _ hm h
  · intro h
    exact clamp_sign _ _ ham h

/-- C4 witness: at the first-tick scenario both raw signals exceed `2.0`, and
the published components equal the limit with the raw signal's sign. -/
theorem C4_clamp_correct_witness :
    (max_linear_speed < |control_signal ⟨4, 5, 0, 0, 0, 1, 0, 0.05, 0, 0⟩|
      ∧ (control_loop ⟨4, 5, 0, 0, 0, 1, 0, 0.05, 0, 0⟩).1.linear
          = max_linear_speed
            * Real.sign (control_signal ⟨4, 5, 0, 0, 0, 1, 0, 0.05, 0, 0⟩))
    ∧ (max_angular_speed < |4.0 * angle_error ⟨4, 5, 0, 0, 0, 1, 0, 0.05, 0, 0⟩|
      ∧ (control_loop ⟨4, 5, 0, 0, 0, 1, 0, 0.05, 0, 0⟩).1.angular
          = max_angular_speed
            * Real.sign (4.0 * angle_error ⟨4, 5, 0, 0, 0, 1, 0, 0.05, 0, 0⟩)) := by
  have h1 : max_linear_speed < |control_signal ⟨4, 5, 0, 0, 0, 1, 0, 0.05, 0, 0⟩| :=
    lt_of_lt_of_le control_signal_tick0_gt (le_abs_self _)
  have h2 : max_angular_speed < |4.0 * angle_error ⟨4, 5, 0, 0, 0, 1, 0, 0.05, 0, 0⟩| :=
    lt_of_lt_of_le angular_raw_tick0_gt (le_abs_self _)
  exact ⟨⟨h1, (C4_clamp_correct _).2.1 h1⟩, ⟨h2, (C4_clamp_correct _).2.2 h2⟩⟩

/-- C5: (corrected) at construction the goal store holds the default goal
`(4, 5)` and the controller state is zero, while the pose fields keep
whatever (indeterminate) values they are constructed with; a store keeps its
construction-time value across any number of control cycles until its
callback runs, and each callback overwrites its store unconditionally. -/
theorem C5_store_contract (x0 y0 th0 gx gy px py pth : ℝ) (n : ℕ) (s : NavState) :
    ((initialNav x0 y0 th0).x_goal = 4 ∧ (initialNav x0 y0 th0).y_goal = 5
      ∧ (initialNav x0 y0 th0).integral = 0
      ∧ (initialNav x0 y0 th0).prev_error = 0
      ∧ (initialNav x0 y0 th0).x_current = x0
      ∧ (initialNav x0 y0 th0).y_current = y0
      ∧ (initialNav x0 y0 th0).theta_current = th0)
    ∧ ((goal_callback s gx gy).x_goal = gx
      ∧ (goal_callback s gx gy).y_goal = gy
      ∧ (pose_callback s px py pth).x_current = px
      ∧ (pose_callback s px py pth).y_current = py
      ∧ (pose_callback s px py pth).theta_current = pth)
    ∧ ((iterateControl n (initialNav x0 y0 th0)).x_goal = 4
      ∧ (iterateControl n (initialNav x0 y0 th0)).y_goal = 5
      ∧ (iterateControl n (initialNav x0 y0 th0)).x_current = x0
      ∧ (iterateControl n (initialNav x0 y0 th0)).y_current = y0
      ∧ (iterateControl n (initialNav x0 y0 th0)).theta_current = th0) := by
  obtain ⟨h1, h2, h3, h4, h5⟩ := iterateControl_frame n (initialNav x0 y0 th0)
  refine ⟨⟨?_, ?_, ?_, ?_, rfl, rfl, rfl⟩, ⟨rfl, rfl, rfl, rfl, rfl⟩,
    ?_, ?_, h3.trans rfl, h4.trans rfl, h5.trans rfl⟩
  · norm_num [initialNav]
  · norm_num [initialNav]
  · norm_num [initialNav]
  · norm_num [initialNav]
  · exact h1.trans (by norm_num [initialNav])
  · exact h2.trans (by norm_num [initialNav])

/-- C5 counterexample: the constructor does not put the pose store into any
fixed default/zero state — its value is whatever the default-initialized
members happen to hold, so two constructions can disagree. -/
theorem C5_counterexample :
    (initialNav 7 8 9).x_current ≠ (initialNav 1 8 9).x_current := by
  norm_num [initialNav]

/-- C6: a constant distance error `d ≠ 0` held for `N ≥ 1` cycles from
`integral_error = 0` leaves `integral_error = N * d`; the integral
accumulates only the distance error and is never reset. -/
theorem C6_integral_growth (s : NavState) (N : ℕ) (hN : 1 ≤ N)
    (h0 : s.integral = 0) (hd : distance_error s ≠ 0) :
    (iterateControl N s).integral = N * distance_error s := by
  rw [iterateControl_integral, h0, zero_add]

/-- C6 witness: three cycles from the first-tick scenario accumulate
`3 * sqrt 41`. -/
theorem C6_integral_growth_witness :
    ((1:ℕ) ≤ 3 ∧ (⟨4, 5, 0, 0, 0, 1, 0, 0.05, 0, 0⟩ : NavState).integral = 0
      ∧ distance_error ⟨4, 5, 0, 0, 0, 1, 0, 0.05, 0, 0⟩ ≠ 0)
    ∧ (iterateControl 3 ⟨4, 5, 0, 0, 0, 1, 0, 0.05, 0, 0⟩).integral
        = ((3:ℕ):ℝ) * distance_error ⟨4, 5, 0, 0, 0, 1, 0, 0.05, 0, 0⟩ := by
  have hd : distance_error ⟨4, 5, 0, 0, 0, 1, 0, 0.05, 0, 0⟩ ≠ 0 := by
    rw [distance_error_tick0]
    exact ne_of_gt (Real.sqrt_pos.mpr (by norm_num))
  exact ⟨⟨by norm_num, rfl, hd⟩, C6_integral_growth _ 3 (by norm_num) rfl hd⟩

/-- C7: with the pose position exactly at the goal and zero controller state,
the published linear command is `0` and the angular command is a function of
the pose heading alone. -/
theorem C7_zero_error_fixed_point (s : NavState)
    (hx : s.x_current = s.x_goal) (hy : s.y_current = s.y_goal)
    (hp : s.prev_error = 0) (hi : s.integral = 0) :
    (control_loop s).1.linear = 0
      ∧ (control_loop s).1.angular = headingOnlyAngular s.theta_current := by
  have hd : distance_error s = 0 := by
    simp only [distance_error, error_x, error_y, hx, hy, sub_self]
    rw [show (0:ℝ) * 0 + 0 * 0 = 0 by ring, Real.sqrt_zero]
  constructor
  · have hcs : control_signal s = 0 := by
      simp only [control_signal, hd, hp, hi]
      ring
    show clamp (control_signal s) (-max_linear_speed) max_linear_speed = 0
    rw [hcs]
    exact clamp_of_mem 0 _ _ (by norm_num [max_linear_speed])
      (by norm_num [max_linear_speed])
  · show clamp (4.0 * angle_error s) (-max_angular_speed) max_angular_speed
        = headingOnlyAngular s.theta_current
    simp only [angle_error, angle_to_goal, error_x, error_y, hx, hy, sub_self,
      headingOnlyAngular]

/-- C7 witness: pose `(4, 5)` at the goal `(4, 5)` with heading `3` and zero
state publishes linear `0` and the heading-only angular command. -/
theorem C7_zero_error_fixed_point_witness :
    (control_loop ⟨4, 5, 4, 5, 3, 1, 0, 0.05, 0, 0⟩).1.linear = 0
      ∧ (control_loop ⟨4, 5, 4, 5, 3, 1, 0, 0.05, 0, 0⟩).1.angular
          = headingOnlyAngular 3 :=
  C7_zero_error_fixed_point ⟨4, 5, 4, 5, 3, 1, 0, 0.05, 0, 0⟩ rfl rfl rfl rfl

/-- C8: for every real-valued input both normalization loops terminate (reach
a value where the loop guard fails), and every invocation of the control law
yields a defined velocity command. -/
theorem C8_totality :
    (∀ a : ℝ, ∃ b : ℝ, SubLoopSteps a b ∧ AddLoopSteps b (normalizeAngle a))
      ∧ ∀ s : NavState, ∃ t : Twist, ∃ u : NavState, control_loop s = (t, u) :=
  ⟨fun a => ⟨normSub a, normSub_steps a, normAdd_steps (normSub a)⟩,
   fun s => ⟨(control_loop s).1, (control_loop s).2, rfl⟩⟩

/-- C9: a `control_loop` invocation leaves the goal, the pose and the gains
unchanged; it mutates exactly the two controller-state cells, to
`integral + distance_error` and `distance_error`. -/
theorem C9_frame (s : NavState) :
    (control_loop s).2.x_goal = s.x_goal
      ∧ (control_loop s).2.y_goal = s.y_goal
      ∧ (control_loop s).2.x_current = s.x_current
      ∧ (control_loop s).2.y_current = s.y_current
      ∧ (control_loop s).2.theta_current = s.theta_current
      ∧ (control_loop s).2.kp = s.kp
      ∧ (control_loop s).2.ki = s.ki
      ∧ (control_loop s).2.kd = s.kd
      ∧ (control_loop s).2.integral = s.integral + distance_error s
      ∧ (control_loop s).2.prev_error = distance_error s :=
  ⟨rfl, rfl, rfl, rfl, rfl, rfl, rfl, rfl, rfl, rfl⟩

/-- C10: the published angular command does not depend on the controller
state — two invocations with the same goal, pose and gains but arbitrary
`previous_distance_error` and `integral_error` publish the same angular
command. -/
theorem C10_angular_noninterference
    (xg yg xc yc th g1 g2 g3 p1 i1 p2 i2 : ℝ) :
    (control_loop ⟨xg, yg, xc, yc, th, g1, g2, g3, p1, i1⟩).1.angular
      = (control_loop ⟨xg, yg, xc, yc, th, g1, g2, g3, p2, i2⟩).1.angular := rfl

end Navigator
